import Mathlib

/-!
Verification development for EIDA/webreqlog (src/webreqlog.py).

The file shallow-embeds the request selection and aggregation core of
webreqlog.py: the `Counter` time-bucket aggregator (`Counter.__init__`,
`Counter.__call__`), the fine-grained request selector inside
`loadRequests`, and the per-request rollups of `printRequestSummary`.

Modelling conventions:
* Timestamps are Unix seconds (`Nat`).  `seiscomp.core.Time` arithmetic is
  second-granular here.
* Python dicts are association lists (`List (κ × V)`) with Python's
  insertion-order semantics: updating an existing key keeps its position,
  a new key is appended at the end.  Python dict equality ignores order,
  which is expressed through pointwise `findB` lookups.
* Floating point sizes (`volSize /= 1e6`) are modelled exactly in `ℚ`.
* `seiscomp.core.Time.toString` keying is external to the repository and is
  modelled from the spec (section 4.1 TimeBucketKeying), using the proleptic
  Gregorian calendar on the Unix epoch.  Formatted "YYYY-MM-DD" /"YYYY-MM"
  strings are represented by the (year, month, day) data they render, an
  injective rendering.
-/

namespace Webreqlog

/-- Bucket metrics tuple `(requests, lines, errors, size)` as accumulated by
`Counter.__call__`: request and line counts are Python ints, the volume size
is a Python float (exact rational here). -/
abbrev Metrics := Int × Int × Int × ℚ

/-- The zero metrics tuple `(0,0,0,0)` used by every `setdefault` call. -/
def zeroM : Metrics := (0, 0, 0, 0)

/-- Componentwise addition of metrics tuples. -/
def addMetrics (a b : Metrics) : Metrics :=
  (a.1 + b.1, a.2.1 + b.2.1, a.2.2.1 + b.2.2.1, a.2.2.2 + b.2.2.2)

/-- A Python dict from bucket keys to metrics, in insertion order. -/
abbrev Buckets (κ : Type) := List (κ × Metrics)

/-- Dict lookup (`d[k]` / `k in d`). -/
def findB {κ V : Type} [DecidableEq κ] (k : κ) : List (κ × V) → Option V
  | [] => none
  | (k', v) :: rest => if k' = k then some v else findB k rest

/-- Embeds the Python dict read-modify-write `v = d.setdefault(k, z);
d[k] = f v`: an existing key is updated in place by `f`, an absent one is
appended holding `f z`. -/
def updD {κ V : Type} [DecidableEq κ] (k : κ) (z : V) (f : V → V) : List (κ × V) → List (κ × V)
  | [] => [(k, f z)]
  | (k', v) :: rest => if k' = k then (k', f v) :: rest else (k', v) :: updD k z f rest

/-- Embeds the Python dict assignment `d[k] = v`: overwrite in place or
append. -/
def setD {κ V : Type} [DecidableEq κ] (k : κ) (v : V) : List (κ × V) → List (κ × V) :=
  updD k v (fun _ => v)

/-- Embeds `d.setdefault(k, (0,0,0,0))` used while pre-seeding buckets:
a present key is untouched, an absent key is appended with zero metrics. -/
def setdefault {κ : Type} [DecidableEq κ] (m : Buckets κ) (k : κ) : Buckets κ :=
  if (findB k m).isSome then m else m ++ [(k, zeroM)]

/-- Embeds the accumulation pattern of `Counter.__call__`:
`(r,l,e,s) = d.setdefault(k, (0,0,0,0)); d[k] = (r+dr, l+dl, e+de, s+ds)`.
An existing key is updated in place, an absent key is appended holding
`zeroM + d`. -/
def bump {κ : Type} [DecidableEq κ] (k : κ) (d : Metrics) : Buckets κ → Buckets κ
  | [] => [(k, addMetrics zeroM d)]
  | (k', v) :: rest => if k' = k then (k', addMetrics v d) :: rest else (k', v) :: bump k d rest

/-! ## Calendar keying (TimeBucketKeying)

Modelled from the spec: `seiscomp.core.Time.toString("%Y-%m-%d")`,
`toString("%Y-%m")`, `toString("%H")` and `toString("%w")` are library calls
outside this repository; section 4.1 of the spec specifies them as the pure
hour / day / month / weekday keying functions over a timestamp.  Day keys are
the Gregorian (year, month, day) a strftime renders, month keys the
(year, month) pair, hour keys the zero-padded "00".."23" strings, and the
weekday index is `%w` (0 = Sunday; Unix day 0, 1970-01-01, was a Thursday). -/

/-- Gregorian leap year test. -/
def isLeap (y : Nat) : Bool := (y % 4 == 0 && y % 100 != 0) || (y % 400 == 0)

/-- Number of days of year `y`. -/
def daysInYear (y : Nat) : Nat := if isLeap y then 366 else 365

theorem daysInYear_pos (y : Nat) : 365 ≤ daysInYear y := by
  unfold daysInYear; split <;> omega

/-- Fuelled year splitting: starting at year `y`, peel whole years off a day
count `d` until fewer than a year of days remains.  The fuel only serves to
make the recursion structural; `splitYear` always supplies enough. -/
def splitYearAux : Nat → Nat → Nat → Nat × Nat
  | 0, y, d => (y, d)
  | fuel + 1, y, d =>
    if d < daysInYear y then (y, d) else splitYearAux fuel (y + 1) (d - daysInYear y)

/-- Year and zero-based day-of-year of day number `d` counted from 1970-01-01. -/
def splitYear (y d : Nat) : Nat × Nat := splitYearAux (d + 1) y d

/-- Month lengths, January first. -/
def monthLengths (leap : Bool) : List Nat :=
  [31, if leap then 29 else 28, 31, 30, 31, 30, 31, 31, 30, 31, 30, 31]

/-- Peel whole months off a zero-based day-of-year. -/
def monthSplitAux : List Nat → Nat → Nat → Nat × Nat
  | [], m, d => (m, d)
  | len :: rest, m, d =>
    if d < len then (m, d) else monthSplitAux rest (m + 1) (d - len)

/-- Month (1-based) and zero-based day-of-month of a day-of-year. -/
def monthSplit (leap : Bool) (d : Nat) : Nat × Nat := monthSplitAux (monthLengths leap) 1 d

/-- Gregorian (year, month, day-of-month) of a day number counted from
1970-01-01; the data rendered by strftime's "%Y-%m-%d". -/
def civilFromDays (z : Nat) : Nat × Nat × Nat :=
  ((splitYear 1970 z).1,
   (monthSplit (isLeap (splitYear 1970 z).1) (splitYear 1970 z).2).1,
   (monthSplit (isLeap (splitYear 1970 z).1) (splitYear 1970 z).2).2 + 1)

/-- Day number of a Unix timestamp. -/
def dayNum (t : Nat) : Nat := t / 86400

/-- Daily bucket key (`t.toString("%Y-%m-%d")`). -/
def dayKey (t : Nat) : Nat × Nat × Nat := civilFromDays (dayNum t)

/-- Monthly bucket key (`t.toString("%Y-%m")`). -/
def monthKey (t : Nat) : Nat × Nat :=
  ((civilFromDays (dayNum t)).1, (civilFromDays (dayNum t)).2.1)

/-- Two-digit rendering used for hour keys (`"%02d" % h`). -/
def pad2 (n : Nat) : String := (if n < 10 then "0" else "") ++ toString n

/-- Hourly bucket key (`date.toString("%H")`). -/
def hourKey (t : Nat) : String := pad2 (t % 86400 / 3600)

/-- The ordinal-prefixed weekday key list of `Counter.__init__`
(line 166 of webreqlog.py), indexed by strftime's `%w` (0 = Sunday). -/
def weekdays : List String :=
  ["$0Sunday", "$1Monday", "$2Tuesday", "$3Wednesday", "$4Thursday", "$5Friday", "$6Saturday"]

/-- Weekday index `int(t.toString("%w"))`: day 0 (1970-01-01) was a Thursday
(index 4). -/
def weekdayIdx (t : Nat) : Nat := (dayNum t + 4) % 7

/-- Weekday bucket key `self.weekdays[int(t.toString("%w"))]`. -/
def weekdayKey (t : Nat) : String := weekdays.getD (weekdayIdx t) ""

/-- Plain weekday names in calendar order, Sunday first.  Modelled from the
spec: the rendering target of `weekdayDisplay` (`k[2:]` in `wwwChart`). -/
def weekdayNames : List String :=
  ["Sunday", "Monday", "Tuesday", "Wednesday", "Thursday", "Friday", "Saturday"]

/-- The display operation of `wwwChart` (line 837): `k[2:]` strips the
two-character ordinal prefix off a weekday bucket key. -/
def weekdayDisplay (k : String) : String := k.drop 2

/-! ## Data model

`ArclinkRequest` and its sub-lines, as read by the aggregation core.  Lazy
sub-line loading (`loadArclinkStatusLines` / `loadArclinkRequestLines`) is an
idempotent external store call; a record here carries the sub-lines that the
loads make visible, so a load is the identity in this embedding. -/

/-- One `ArclinkStatusLine`: outcome of one delivered volume. -/
structure StatusLine where
  volumeID : String
  status : String
  size : Nat
  message : String
deriving DecidableEq

/-- A `WaveformStreamID`. -/
structure WfStreamID where
  networkCode : String
  stationCode : String
  locationCode : String
  channelCode : String
deriving DecidableEq

/-- The nested `status` sub-object of an `ArclinkRequestLine`. -/
structure LineStatus where
  volumeID : String
  status : String
  size : Nat
  message : String
deriving DecidableEq

/-- One `ArclinkRequestLine`: one requested channel/time-window.  `start` and
`end_` are Unix seconds. -/
structure RequestLine where
  streamID : WfStreamID
  start : Nat
  end_ : Nat
  restricted : Bool
  status : LineStatus
deriving DecidableEq

/-- An `ArclinkRequestSummary`: line totals of a request. -/
structure ReqSummary where
  okLineCount : Int
  totalLineCount : Int
deriving DecidableEq

/-- An `ArclinkRequest` record.  `summary` is `none` when reading
`request.summary()` would raise (unset optional attribute). -/
structure ArclinkRequest where
  requestID : String
  userID : String
  userIP : String
  clientID : String
  clientIP : String
  type : String
  status : String
  created : Nat
  summary : Option ReqSummary
  statusLines : List StatusLine
  requestLines : List RequestLine
deriving DecidableEq

/-! ## UsageCounter (`Counter`, webreqlog.py lines 157-211) -/

/-- The four time-bucket dicts of a `Counter`. -/
structure Counter where
  hourly : Buckets String
  daily : Buckets (Nat × Nat × Nat)
  monthly : Buckets (Nat × Nat)
  weekdaily : Buckets String
deriving DecidableEq

/-- The pre-seeding `while t < end` loop of `Counter.__init__`: starting at
`t`, seed the daily, monthly and weekday dicts for every step of 86400
seconds below `end_`.  The fuel argument only makes the recursion structural;
`counterInit` supplies enough for the loop to run to completion. -/
def presetLoop : Nat → Nat → Nat →
    Buckets (Nat × Nat × Nat) × Buckets (Nat × Nat) × Buckets String →
    Buckets (Nat × Nat × Nat) × Buckets (Nat × Nat) × Buckets String
  | 0, _, _, acc => acc
  | fuel + 1, t, end_, acc =>
    if t < end_ then
      presetLoop fuel (t + 86400) end_
        (setdefault acc.1 (dayKey t), setdefault acc.2.1 (monthKey t),
         setdefault acc.2.2 (weekdayKey t))
    else acc

/-- The hourly pre-seeding loop `for h in range(0,24): setdefault("%02d"%h)`. -/
def hourlySeed : Buckets String :=
  (List.range 24).foldl (fun h n => setdefault h (pad2 n)) []

/-- Embeds `Counter.__init__(start, end)` for provided `start` and `end`:
seeds daily/monthly/weekday buckets over `[start, end)` in steps of one day,
then all 24 hourly buckets.  No range validation is performed by the source:
when `end_ ≤ start` the day loop body never runs and only the hourly buckets
are seeded. -/
def counterInit (start end_ : Nat) : Counter :=
  let dmw := presetLoop (end_ - start + 1) start end_ ([], [], [])
  { hourly := hourlySeed, daily := dmw.1, monthly := dmw.2.1, weekdaily := dmw.2.2 }

/-- Summary used by `Counter.__call__` (`request.summary()` is present on
every record reaching the counter; a missing one is treated as zero). -/
def summaryOf (r : ArclinkRequest) : ReqSummary := r.summary.getD ⟨0, 0⟩

/-- The metrics delta of one request in `Counter.__call__`:
one request, `totalLineCount` lines, `totalLineCount - okLineCount` errors,
and the summed status-line sizes scaled by `1e-6`. -/
def requestDelta (r : ArclinkRequest) : Metrics :=
  (1, (summaryOf r).totalLineCount,
   (summaryOf r).totalLineCount - (summaryOf r).okLineCount,
   ((r.statusLines.map (fun sl => (sl.size : ℚ))).sum) / 1000000)

/-- Embeds `Counter.__call__(request)`: adds the request's delta into the
hourly, daily, monthly and weekday bucket of its creation time. -/
def accumulate (c : Counter) (r : ArclinkRequest) : Counter :=
  { hourly := bump (hourKey r.created) (requestDelta r) c.hourly,
    daily := bump (dayKey r.created) (requestDelta r) c.daily,
    monthly := bump (monthKey r.created) (requestDelta r) c.monthly,
    weekdaily := bump (weekdayKey r.created) (requestDelta r) c.weekdaily }

/-! ## RequestSelector (`loadRequests`, webreqlog.py lines 1361-1512)

The fine-grained selection pass.  Session arguments default to Python
`False`; an optional string criterion is `none` when the argument is absent.
Python truthiness makes the empty string behave like an absent criterion in
the `if volume and ...` style guards, while the `userIP != False` guard also
fires for an empty string. -/

/-- Fine-grained selection criteria (the relevant `session.args`).
`streamID` is the raw argument with `*` and `?` stripped (line 1424);
`restricted` is the tri-state of lines 1378-1381 and 1430-1431. -/
structure Criteria where
  restricted : Option Bool
  onlyErrors : Bool
  lines : Bool
  volume : Option String
  message : Option String
  userIP : Option String
  clientIP : Option String
  streamID : String
deriving DecidableEq

/-- Python truthiness of an optional string argument: `False` and the empty
string are falsy. -/
def truthy : Option String → Bool
  | none => false
  | some s => !(s == "")

/-- Embeds `message.replace("%20", " ")`: every occurrence of `%20` becomes a
space, scanning left to right. -/
def rep20 : List Char → List Char
  | '%' :: '2' :: '0' :: rest => ' ' :: rep20 rest
  | c :: rest => c :: rep20 rest
  | [] => []

/-- String form of the `%20` replacement. -/
def msgRep (s : String) : String := String.mk (rep20 s.data)

/-- Embeds Python `str.split(".")` (no limit, single-character separator). -/
def splitDotAux : List Char → List Char → List String
  | [], acc => [String.mk acc.reverse]
  | c :: rest, acc =>
    if c = '.' then String.mk acc.reverse :: splitDotAux rest [] else splitDotAux rest (c :: acc)

/-- Python `s.split(".")`. -/
def splitDot (s : String) : List String := splitDotAux s.data []

/-- Embeds lines 1425-1428: unpack `streamID.split(".")` into four segments,
with `("","","","")` when the split does not yield exactly four parts. -/
def parseStream (s : String) : String × String × String × String :=
  match splitDot s with
  | [net, sta, loc, cha] => (net, sta, loc, cha)
  | _ => ("", "", "", "")

/-- Embeds lines 1437-1438: `reqErrors = totalLineCount - okLineCount`,
with `0` when reading the summary raises. -/
def reqErrors (r : ArclinkRequest) : Int :=
  match r.summary with
  | some s => s.totalLineCount - s.okLineCount
  | none => 0

/-- Embeds the status-line filter of lines 1457-1465: a status line is kept
(copied into the projection, setting `foundVolume`) unless a requested volume
or message mismatches, or `onlyErrors` is set and the line status is OK. -/
def slineKept (c : Criteria) (sl : StatusLine) : Bool :=
  if truthy c.volume ∧ c.volume ≠ some sl.volumeID then false
  else if truthy c.message ∧ c.message.map msgRep ≠ some sl.message then false
  else if c.onlyErrors ∧ sl.status = "OK" then false
  else true

/-- Embeds the request-line filter of lines 1473-1488: a request line is kept
unless a requested volume or message mismatches its nested status, or
`onlyErrors` is set and the nested status is OK, or a non-empty stream
segment mismatches (only checked when the stripped streamID is non-empty), or
the tri-state `restricted` differs from the line's flag. -/
def lineKept (c : Criteria) (ln : RequestLine) : Bool :=
  if truthy c.volume ∧ c.volume ≠ some ln.status.volumeID then false
  else if truthy c.message ∧ c.message.map msgRep ≠ some ln.status.message then false
  else if c.onlyErrors ∧ ln.status.status = "OK" then false
  else if c.streamID.length > 0 ∧ (parseStream c.streamID).1 ≠ "" ∧
      (parseStream c.streamID).1 ≠ ln.streamID.networkCode then false
  else if c.streamID.length > 0 ∧ (parseStream c.streamID).2.1 ≠ "" ∧
      (parseStream c.streamID).2.1 ≠ ln.streamID.stationCode then false
  else if c.streamID.length > 0 ∧ (parseStream c.streamID).2.2.1 ≠ "" ∧
      (parseStream c.streamID).2.2.1 ≠ ln.streamID.locationCode then false
  else if c.streamID.length > 0 ∧ (parseStream c.streamID).2.2.2 ≠ "" ∧
      (parseStream c.streamID).2.2.2 ≠ ln.streamID.channelCode then false
  else if (match c.restricted with | some b => b != ln.restricted | none => false : Bool) then false
  else true

/-- Clamped duration of a request line: the source only adds `end - start`
to the running time window when `start <= end` (lines 1491-1494), which is
`max(end - start, 0)`. -/
def clampDur (ln : RequestLine) : Nat := if ln.start ≤ ln.end_ then ln.end_ - ln.start else 0

/-- The request-line loop body of lines 1470-1494 restricted to its counters:
over the kept lines, `(lineCount, errorCount, tw)`, with `tw` the summed
clamped time windows in seconds. -/
def lineLoop (c : Criteria) : List RequestLine → Nat × Nat × Nat
  | [] => (0, 0, 0)
  | ln :: rest =>
    let r := lineLoop c rest
    if lineKept c ln then
      (r.1 + 1, r.2.1 + (if ln.status.status = "OK" then 0 else 1), r.2.2 + clampDur ln)
    else r

/-- The derived summary computation of lines 1496-1503: the average time
window is `tw.seconds()`, replaced by `tw.seconds() / lineCount` when at
least one line matched, and replaced by `-1` when strictly greater than
`2**32`. -/
def averageTimeWindow (c : Criteria) (lns : List RequestLine) : ℚ :=
  let lc := (lineLoop c lns).1
  let tw := (lineLoop c lns).2.2
  let a : ℚ := if lc > 0 then (tw : ℚ) / lc else (tw : ℚ)
  if a > 2 ^ 32 then -1 else a

/-- Embeds lines 1433-1434: a literal `"unknown"` IP criterion is rewritten
to the empty string before the selection loop. -/
def ipRewrite : Option String → Option String
  | some s => if s = "unknown" then some "" else some s
  | none => none

/-- The criteria as they enter the selection loop: lines 1433-1434 rewrite a
literal `"unknown"` userIP or clientIP criterion to the empty string. -/
def prepareCriteria (c : Criteria) : Criteria :=
  { c with userIP := ipRewrite c.userIP, clientIP := ipRewrite c.clientIP }

/-- Embeds the `userIP != False` / `clientIP != False` gates of lines
1440-1447: an absent criterion passes every record, a present one (empty
string included) passes exactly the records with that stored IP. -/
def ipMatches : Option String → String → Bool
  | none, _ => true
  | some v, ip => v == ip

/-- Embeds the per-candidate inclusion decision of the selection loop (lines
1436-1510) on criteria already IP-rewritten: early rejection on an IP
mismatch, rejection when a volume is requested and the record has no status
lines, and otherwise the layered `foundRequest or foundLine or foundVolume`
decision of lines 1449-1450 and 1506-1508. -/
def selectDecision (c : Criteria) (r : ArclinkRequest) : Bool :=
  if ¬ ipMatches c.userIP r.userIP then false
  else if ¬ ipMatches c.clientIP r.clientIP then false
  else if truthy c.volume ∧ r.statusLines.length = 0 then false
  else
    let foundUserIP := c.userIP.isSome
    let foundClientIP := c.clientIP.isSome
    let foundRequest0 := c.onlyErrors && !(r.status == "END")
    let foundVolume := r.statusLines.any (slineKept c)
    let foundLine := (c.lines || c.restricted.isSome) && r.requestLines.any (lineKept c)
    let foundRequest1 := foundRequest0 ||
      (!c.lines && !truthy c.volume && c.onlyErrors && decide (0 < reqErrors r))
    let foundRequest2 := foundRequest1 ||
      (!truthy c.message && !c.lines && !c.onlyErrors && !truthy c.volume &&
        (foundUserIP || foundClientIP))
    foundRequest2 || foundLine || foundVolume

/-! ## SummaryAggregator (`printRequestSummary`, webreqlog.py lines 948-1074)

The per-request rollup pass.  Sizes stay in the store's native integer unit
here (no `1e-6` scaling happens in this function). -/

/-- The rollup dicts and global totals threaded through the request loop of
`printRequestSummary`. -/
structure SummaryState where
  users : List (String × (Int × Int × Int × Nat))
  rtypes : List (String × (Int × Int × Int))
  streams : List (String × (Nat × Nat × Nat × Nat × Nat))
  errors : List (String × Int)
  messages : List (String × Nat)
  total : Int
  volumes : List (String × (Nat × Nat × Nat))
  userIPs : List (String × (Int × Int × Int))
  clientIPs : List (String × (Int × Int × Int))
  nets : List (String × (Nat × Nat × Nat × Nat × Nat))
  timeMin : Nat
  timeMax : Nat
deriving DecidableEq

/-- Error indicator of a status line (line 976-977): everything except OK
counts as one error. -/
def slErr (sl : StatusLine) : Nat := if sl.status = "OK" then 0 else 1

/-- Size contributed by a status line (lines 980-986): an ERROR line
contributes zero bytes, any other line its recorded size. -/
def slineSize (sl : StatusLine) : Nat := if sl.status = "ERROR" then 0 else sl.size

/-- One iteration of the status-line loop (lines 974-994), threading
`(volumes, users, messages, volume_error)`. -/
def statusStep (user : String)
    (st : List (String × (Nat × Nat × Nat)) × List (String × (Int × Int × Int × Nat)) ×
      List (String × Nat) × List (String × Bool))
    (sl : StatusLine) :
    List (String × (Nat × Nat × Nat)) × List (String × (Int × Int × Int × Nat)) ×
      List (String × Nat) × List (String × Bool) :=
  let volErr := setD sl.volumeID (decide (sl.status = "ERROR")) st.2.2.2
  let volumes := updD sl.volumeID (0, 0, 0)
    (fun v => (v.1 + 1, v.2.1 + slErr sl, v.2.2 + slineSize sl)) st.1
  let users := updD user (0, 0, 0, 0)
    (fun v => (v.1, v.2.1, v.2.2.1, v.2.2.2 + slineSize sl)) st.2.1
  let messages := updD sl.message 0 (· + 1) st.2.2.1
  (volumes, users, messages, volErr)

/-- The status-line loop of lines 974-994, iterating `statusStep` in order. -/
def statusLoop (user : String) : List StatusLine →
    List (String × (Nat × Nat × Nat)) × List (String × (Int × Int × Int × Nat)) ×
      List (String × Nat) × List (String × Bool) →
    List (String × (Nat × Nat × Nat)) × List (String × (Int × Int × Int × Nat)) ×
      List (String × Nat) × List (String × Bool)
  | [], st => st
  | sl :: rest, st => statusLoop user rest (statusStep user st sl)

/-- The `byStation` key `networkCode + "." + stationCode` (line 1001). -/
def streamKey (ln : RequestLine) : String :=
  ln.streamID.networkCode ++ "." ++ ln.streamID.stationCode

/-- Year rendered by `line.start().toString('%Y')` (external call, modelled
from the spec as the Gregorian year of the timestamp). -/
def yearStr (t : Nat) : String := toString (splitYear 1970 (dayNum t)).1

/-- The `byNetwork` key of lines 1035-1037: network codes starting with X, Y
or Z are suffixed with `/` and the line's start year.  The source indexes
`netcode[0]` and would raise on an empty code; an empty code stays bare
here. -/
def netKey (ln : RequestLine) : String :=
  let nc := ln.streamID.networkCode
  match nc.data with
  | c :: _ => if c = 'X' ∨ c = 'Y' ∨ c = 'Z' then nc ++ "/" ++ yearStr ln.start else nc
  | [] => nc

/-- Size contributed by a request line to `byStation` and `byNetwork`
(lines 1006-1027): zero for an ERROR or NODATA line; otherwise zero when the
per-request volume-error flag of the line's volume is set, and the line's own
recorded size when the flag is clear or the volume was never seen among the
status lines (`except KeyError`). -/
def reqLineSize (volErr : List (String × Bool)) (ln : RequestLine) : Nat :=
  if ln.status.status = "ERROR" then 0
  else if ln.status.status = "NODATA" then 0
  else match findB ln.status.volumeID volErr with
    | some true => 0
    | some false => ln.status.size
    | none => ln.status.size

/-- Error indicator of a request line (lines 1006-1018). -/
def rlErr (ln : RequestLine) : Nat := if ln.status.status = "ERROR" then 1 else 0

/-- Nodata indicator of a request line (lines 1006-1018). -/
def rlNodata (ln : RequestLine) : Nat :=
  if ln.status.status = "ERROR" then 0 else if ln.status.status = "NODATA" then 1 else 0

/-- One iteration of the request-line loop (lines 998-1040), threading
`(streams, messages, netcounts)` under the request's fixed volume-error
flags. -/
def lineStep (volErr : List (String × Bool))
    (st : List (String × (Nat × Nat × Nat × Nat × Nat)) × List (String × Nat) ×
      List (String × (Nat × Nat × Nat × Nat)))
    (ln : RequestLine) :
    List (String × (Nat × Nat × Nat × Nat × Nat)) × List (String × Nat) ×
      List (String × (Nat × Nat × Nat × Nat)) :=
  let streams := updD (streamKey ln) (0, 0, 0, 0, 0)
    (fun v => (v.1 + 1, v.2.1 + rlNodata ln, v.2.2.1 + rlErr ln,
      v.2.2.2.1 + reqLineSize volErr ln, v.2.2.2.2 + clampDur ln)) st.1
  let messages := updD ln.status.message 0 (· + 1) st.2.1
  let netcounts := updD (netKey ln) (0, 0, 0, 0)
    (fun v => (v.1 + 1, v.2.1 + rlNodata ln, v.2.2.1 + rlErr ln,
      v.2.2.2 + reqLineSize volErr ln)) st.2.2
  (streams, messages, netcounts)

/-- The request-line loop of lines 998-1040, iterating `lineStep` in order. -/
def requestLoop (volErr : List (String × Bool)) : List RequestLine →
    List (String × (Nat × Nat × Nat × Nat × Nat)) × List (String × Nat) ×
      List (String × (Nat × Nat × Nat × Nat)) →
    List (String × (Nat × Nat × Nat × Nat × Nat)) × List (String × Nat) ×
      List (String × (Nat × Nat × Nat × Nat))
  | [], st => st
  | ln :: rest, st => requestLoop volErr rest (lineStep volErr st ln)

/-- Embeds lines 1052-1058: an empty stored IP is keyed under the literal
rollup category `"unknown"`. -/
def normIP (ip : String) : String := if ip.length = 0 then "unknown" else ip

/-- The per-request `volume_error` dict as computed by the status-line loop
(lines 969-986): for each volume, true iff the last status line bearing it
had status ERROR. -/
def requestVolErr (S : SummaryState) (r : ArclinkRequest) : List (String × Bool) :=
  (statusLoop r.userID r.statusLines (S.volumes, S.users, S.messages, [])).2.2.2

/-- One full iteration of the request loop of `printRequestSummary`
(lines 967-1074): status-line rollups, request-line rollups, the per-network
merge, and the summary-derived per-user / per-IP / per-type / error-ID
updates. -/
def procRequest (S : SummaryState) (r : ArclinkRequest) : SummaryState :=
  let user := r.userID
  let sres := statusLoop user r.statusLines (S.volumes, S.users, S.messages, [])
  let volErr := sres.2.2.2
  let lres := requestLoop volErr r.requestLines (S.streams, sres.2.2.1, [])
  let netcounts := lres.2.2
  let nets := netcounts.foldl (fun m kv =>
    updD kv.1 (0, 0, 0, 0, 0)
      (fun v => (v.1 + 1, v.2.1 + kv.2.1, v.2.2.1 + kv.2.2.1,
        v.2.2.2.1 + kv.2.2.2.1, v.2.2.2.2 + kv.2.2.2.2)) m) S.nets
  let lineCount := (summaryOf r).totalLineCount
  let errorCount := (summaryOf r).totalLineCount - (summaryOf r).okLineCount
  let users := updD user (0, 0, 0, 0)
    (fun v => (v.1 + 1, v.2.1 + lineCount, v.2.2.1 + errorCount, v.2.2.2)) sres.2.1
  let userIPs := updD (normIP r.userIP) (0, 0, 0)
    (fun v => (v.1 + 1, v.2.1 + lineCount, v.2.2 + errorCount)) S.userIPs
  let clientIPs := updD (normIP r.clientIP) (0, 0, 0)
    (fun v => (v.1 + 1, v.2.1 + lineCount, v.2.2 + errorCount)) S.clientIPs
  let rtypes := updD r.type (0, 0, 0)
    (fun v => (v.1 + 1, v.2.1 + lineCount, v.2.2 + errorCount)) S.rtypes
  let errors := if 0 < errorCount then updD r.requestID 0 (· + errorCount) S.errors else S.errors
  { users := users, rtypes := rtypes, streams := lres.1, errors := errors,
    messages := lres.2.1, total := S.total + lineCount, volumes := sres.1,
    userIPs := userIPs, clientIPs := clientIPs, nets := nets,
    timeMin := if r.created < S.timeMin then r.created else S.timeMin,
    timeMax := if S.timeMax < r.created then r.created else S.timeMax }

/-- Componentwise sum of all metrics stored in a bucket dict. -/
def sumB {κ : Type} (m : Buckets κ) : Metrics :=
  m.foldr (fun kv a => addMetrics kv.2 a) zeroM

/-- The inclusion decision exactly as claim C1 words it (not as the source
computes it), for comparison against `selectDecision`: a request is accepted
iff matchedByStatus holds with no line/volume/message narrowing and
`reqErrors > 0`, or an IP filter matched with no message/lines/onlyErrors/
volume narrowing, or some status line survived the skips, or some request
line survived the skips; a requested volume with zero status lines rejects,
as does an IP mismatch. -/
def specClaimAccept (c : Criteria) (r : ArclinkRequest) : Bool :=
  if ¬ ipMatches c.userIP r.userIP then false
  else if ¬ ipMatches c.clientIP r.clientIP then false
  else if truthy c.volume ∧ r.statusLines.length = 0 then false
  else
    let matchedByStatus := c.onlyErrors && !(r.status == "END")
    let noNarrowing := !c.lines && !truthy c.volume && !truthy c.message
    let disj1 := matchedByStatus && noNarrowing && decide (0 < reqErrors r)
    let disj2 := (c.userIP.isSome || c.clientIP.isSome) && !truthy c.message && !c.lines &&
      !c.onlyErrors && !truthy c.volume
    let matchedByVolume := r.statusLines.any (slineKept c)
    let matchedByLine := (c.lines || c.restricted.isSome) && r.requestLines.any (lineKept c)
    disj1 || disj2 || matchedByVolume || matchedByLine

/-! ## Concrete sample data

Criteria and records used to instantiate theorems on concrete inputs. -/

/-- Criteria with every filter absent. -/
def noCriteria : Criteria :=
  { restricted := none, onlyErrors := false, lines := false, volume := none,
    message := none, userIP := none, clientIP := none, streamID := "" }

/-- Criteria asking only for requests with errors (`onlyErrors = "yes"`). -/
def onlyErrorsCriteria : Criteria := { noCriteria with onlyErrors := true }

/-- Criteria asking only for per-line detail (`lines = "yes"`). -/
def linesCriteria : Criteria := { noCriteria with lines := true }

/-- Criteria filtering userIP and clientIP on the literal "unknown". -/
def unknownIPCriteria : Criteria :=
  { noCriteria with userIP := some "unknown", clientIP := some "unknown" }

/-- A finished record with two summarized error lines and no sub-lines. -/
def endErrRecord : ArclinkRequest :=
  { requestID := "9", userID := "u", userIP := "", clientID := "c", clientIP := "",
    type := "WAVEFORM", status := "END", created := 0,
    summary := some { okLineCount := 0, totalLineCount := 2 },
    statusLines := [], requestLines := [] }

/-- A record with empty stored IPs. -/
def emptyIPRecord : ArclinkRequest :=
  { requestID := "1", userID := "u", userIP := "", clientID := "c", clientIP := "",
    type := "WAVEFORM", status := "END", created := 0, summary := none,
    statusLines := [], requestLines := [] }

/-- A request line spanning exactly 2^32 seconds, delivered OK. -/
def hugeWindowLine : RequestLine :=
  { streamID := { networkCode := "GE", stationCode := "APE", locationCode := "",
                  channelCode := "BHZ" },
    start := 0, end_ := 4294967296, restricted := false,
    status := { volumeID := "v1", status := "OK", size := 0, message := "" } }

/-- The empty rollup state entering the request loop of
`printRequestSummary`, with `timeMin`/`timeMax` initialized from the session
range (lines 962-965). -/
def initSummaryState (tMin tMax : Nat) : SummaryState :=
  { users := [], rtypes := [], streams := [], errors := [], messages := [], total := 0,
    volumes := [], userIPs := [], clientIPs := [], nets := [], timeMin := tMin, timeMax := tMax }

/-- Scenario record 1 of claim C8: id 1, a permanent-network (IU) request
line, no errors. -/
def iuRecord : ArclinkRequest :=
  { requestID := "1", userID := "alice", userIP := "10.0.0.1", clientID := "cl1",
    clientIP := "10.0.0.2", type := "WAVEFORM", status := "END", created := 1609500000,
    summary := some { okLineCount := 1, totalLineCount := 1 },
    statusLines := [],
    requestLines :=
      [{ streamID := { networkCode := "IU", stationCode := "ANMO", locationCode := "00",
                       channelCode := "BHZ" },
         start := 1609459200, end_ := 1609462800, restricted := false,
         status := { volumeID := "v1", status := "OK", size := 100, message := "" } }] }

/-- Scenario record 2 of claim C8: id 2, a temporary-network (XX) request
with start year 2021 and two error lines. -/
def xxRecord : ArclinkRequest :=
  { requestID := "2", userID := "bob", userIP := "10.0.0.3", clientID := "cl2",
    clientIP := "10.0.0.4", type := "WAVEFORM", status := "END", created := 1609500000,
    summary := some { okLineCount := 0, totalLineCount := 2 },
    statusLines := [],
    requestLines :=
      [{ streamID := { networkCode := "XX", stationCode := "S1", locationCode := "",
                       channelCode := "HHZ" },
         start := 1609459200, end_ := 1609462800, restricted := false,
         status := { volumeID := "v2", status := "ERROR", size := 0, message := "no data" } },
       { streamID := { networkCode := "XX", stationCode := "S2", locationCode := "",
                       channelCode := "HHZ" },
         start := 1609459200, end_ := 1609462800, restricted := false,
         status := { volumeID := "v2", status := "ERROR", size := 0, message := "no data" } }] }

/-! ## Theorems -/

theorem ipMatches_empty (ip : String) : ipMatches (some "") ip = true ↔ ip = "" := by
  unfold ipMatches
  rw [beq_iff_eq]
  exact eq_comm

theorem weekdayIdx_lt (t : Nat) : weekdayIdx t < 7 := by
  unfold weekdayIdx; omega

/-- C5: every weekday bucket key used by the counter is one of the seven
ordinal-prefixed strings "$0Sunday" through "$6Saturday"; those seven keys,
compared as opaque strings, are pairwise strictly increasing in calendar
order Sunday through Saturday (so sorting any set of them yields calendar
order); and stripping the two-character ordinal prefix recovers exactly the
original weekday name for each of the seven weekdays. -/
theorem c5_weekday_key_order_and_display :
    (∀ t : Nat, weekdayKey t ∈ weekdays) ∧
    List.Pairwise (· < ·) weekdays ∧
    (∀ i : Fin 7, weekdayDisplay (weekdays.getD i "") = weekdayNames.getD i "") := by
  refine ⟨?_, ?_, ?_⟩
  · intro t
    have h : weekdayIdx t < 7 := weekdayIdx_lt t
    have h7 : weekdayIdx t = 0 ∨ weekdayIdx t = 1 ∨ weekdayIdx t = 2 ∨ weekdayIdx t = 3 ∨
        weekdayIdx t = 4 ∨ weekdayIdx t = 5 ∨ weekdayIdx t = 6 := by omega
    unfold weekdayKey
    rcases h7 with h | h | h | h | h | h | h <;> rw [h] <;> decide
  · have h : List.Pairwise (fun a b : String => a.toList < b.toList) weekdays := by decide
    exact h.imp (fun hab => String.lt_iff_toList_lt.mpr hab)
  · decide

/-- C10: with the literal criterion "unknown", the selector's IP gate (after
the pre-loop rewriting of "unknown" to the empty string) passes exactly the
records whose stored IP is empty, for the userIP and the clientIP check
alike; the aggregator's rollup conversely normalizes an empty stored IP to
the literal category "unknown". -/
theorem c10_unknown_ip_criterion (c : Criteria) (r : ArclinkRequest) :
    (c.userIP = some "unknown" →
      (ipMatches (prepareCriteria c).userIP r.userIP = true ↔ r.userIP = "")) ∧
    (c.clientIP = some "unknown" →
      (ipMatches (prepareCriteria c).clientIP r.clientIP = true ↔ r.clientIP = "")) ∧
    normIP "" = "unknown" := by
  have hrw : ipRewrite (some "unknown") = some "" := by decide
  refine ⟨?_, ?_, rfl⟩ <;> intro h <;>
    simp only [prepareCriteria, h, hrw] <;> exact ipMatches_empty _

/-- Witness for C10 at a concrete criteria/record pair: a record with empty
userIP and empty clientIP passes both rewritten "unknown" gates. -/
theorem c10_unknown_ip_criterion_witness :
    (unknownIPCriteria.userIP = some "unknown" →
      (ipMatches (prepareCriteria unknownIPCriteria).userIP emptyIPRecord.userIP = true ↔
        emptyIPRecord.userIP = "")) ∧
    (unknownIPCriteria.clientIP = some "unknown" →
      (ipMatches (prepareCriteria unknownIPCriteria).clientIP emptyIPRecord.clientIP = true ↔
        emptyIPRecord.clientIP = "")) ∧
    normIP "" = "unknown" :=
  c10_unknown_ip_criterion unknownIPCriteria emptyIPRecord

/-- C2 counterexample: at the concrete degenerate range start = end = 86400,
`Counter.__init__` does not fail at all — it returns a counter whose daily,
monthly and weekday dicts are empty while all 24 hourly buckets are seeded:
exactly the partially seeded counter the claim says is never produced. -/
theorem c2_counterexample :
    (counterInit 86400 86400).daily = [] ∧ (counterInit 86400 86400).monthly = [] ∧
    (counterInit 86400 86400).weekdaily = [] ∧ (counterInit 86400 86400).hourly.length = 24 := by
  decide

/-- C2 amended: for every pair of timestamps with end ≤ start, constructing a
counter succeeds without any error; the day loop of `Counter.__init__` never
runs, so the daily, monthly and weekday dicts stay empty and only the 24
hourly buckets "00".."23" are seeded (to zero metrics). -/
theorem c2_degenerate_range_counter (s e : Nat) (h : e ≤ s) :
    (counterInit s e).daily = [] ∧ (counterInit s e).monthly = [] ∧
    (counterInit s e).weekdaily = [] ∧
    (counterInit s e).hourly = (List.range 24).map (fun n => (pad2 n, zeroM)) := by
  have hf : e - s = 0 := by omega
  have hl : presetLoop (e - s + 1) s e ([], [], []) = ([], [], []) := by
    rw [hf]
    show presetLoop 1 s e ([], [], []) = ([], [], [])
    unfold presetLoop
    rw [if_neg (by omega)]
  have hh : hourlySeed = (List.range 24).map (fun n => (pad2 n, zeroM)) := by decide
  refine ⟨?_, ?_, ?_, ?_⟩ <;> simp only [counterInit, hl, hh]

/-- Witness for the amended C2 at the concrete range start = end = 86400. -/
theorem c2_degenerate_range_counter_witness :
    86400 ≤ 86400 ∧
    ((counterInit 86400 86400).daily = [] ∧ (counterInit 86400 86400).monthly = [] ∧
     (counterInit 86400 86400).weekdaily = [] ∧
     (counterInit 86400 86400).hourly = (List.range 24).map (fun n => (pad2 n, zeroM))) :=
  ⟨Nat.le_refl _, c2_degenerate_range_counter 86400 86400 (Nat.le_refl _)⟩

theorem addMetrics_comm (a b : Metrics) : addMetrics a b = addMetrics b a := by
  simp only [addMetrics, Prod.mk.injEq]
  exact ⟨by ring, by ring, by ring, by ring⟩

theorem addMetrics_assoc (a b c : Metrics) :
    addMetrics (addMetrics a b) c = addMetrics a (addMetrics b c) := by
  simp only [addMetrics, Prod.mk.injEq]
  exact ⟨by ring, by ring, by ring, by ring⟩

theorem addMetrics_right_comm (v d₁ d₂ : Metrics) :
    addMetrics (addMetrics v d₁) d₂ = addMetrics (addMetrics v d₂) d₁ := by
  rw [addMetrics_assoc, addMetrics_assoc, addMetrics_comm d₁ d₂]

theorem addMetrics_zero_right (a : Metrics) : addMetrics a zeroM = a := by
  obtain ⟨a1, a2, a3, a4⟩ := a
  simp only [addMetrics, zeroM, Prod.mk.injEq]
  exact ⟨by ring, by ring, by ring, by ring⟩

theorem addMetrics_zero_left (a : Metrics) : addMetrics zeroM a = a := by
  rw [addMetrics_comm, addMetrics_zero_right]

theorem findB_bump_self {κ : Type} [DecidableEq κ] (k : κ) (d : Metrics) (m : Buckets κ) :
    findB k (bump k d m) = some (addMetrics ((findB k m).getD zeroM) d) := by
  induction m with
  | nil => simp [bump, findB]
  | cons kv rest ih =>
    obtain ⟨k', v⟩ := kv
    by_cases h : k' = k
    · subst h
      simp [bump, findB]
    · simp [bump, findB, h, ih]

theorem findB_bump_other {κ : Type} [DecidableEq κ] (q k : κ) (h : q ≠ k) (d : Metrics)
    (m : Buckets κ) : findB q (bump k d m) = findB q m := by
  induction m with
  | nil =>
    simp only [bump, findB]
    rw [if_neg (fun hkq => h hkq.symm)]
  | cons kv rest ih =>
    obtain ⟨k', v⟩ := kv
    by_cases hk : k' = k
    · have hkq : ¬ k' = q := fun hq => h (hq ▸ hk)
      simp only [bump, if_pos hk, findB, if_neg hkq]
    · by_cases hq : k' = q
      · simp only [bump, if_neg hk, findB, if_pos hq]
      · simp only [bump, if_neg hk, findB, if_neg hq, ih]

theorem findB_bump_comm {κ : Type} [DecidableEq κ] (q k₁ k₂ : κ) (d₁ d₂ : Metrics)
    (m : Buckets κ) :
    findB q (bump k₁ d₁ (bump k₂ d₂ m)) = findB q (bump k₂ d₂ (bump k₁ d₁ m)) := by
  by_cases h12 : k₁ = k₂
  · subst h12
    by_cases hq : q = k₁
    · subst hq
      rw [findB_bump_self, findB_bump_self, findB_bump_self, findB_bump_self]
      simp only [Option.getD_some]
      rw [addMetrics_right_comm]
    · rw [findB_bump_other q k₁ hq, findB_bump_other q k₁ hq,
        findB_bump_other q k₁ hq, findB_bump_other q k₁ hq]
  · by_cases hq1 : q = k₁
    · subst hq1
      have hq2 : q ≠ k₂ := h12
      rw [findB_bump_self, findB_bump_other q k₂ hq2, findB_bump_other q k₂ hq2,
        findB_bump_self]
    · by_cases hq2 : q = k₂
      · subst hq2
        rw [findB_bump_other q k₁ hq1, findB_bump_self, findB_bump_self,
          findB_bump_other q k₁ hq1]
      · rw [findB_bump_other q k₁ hq1, findB_bump_other q k₂ hq2,
          findB_bump_other q k₂ hq2, findB_bump_other q k₁ hq1]

/-- C6: accumulation into a freshly seeded counter is order-independent: for
every seeding range and every two requests, accumulating R1 then R2 leaves
all four bucket dicts (hourly, daily, monthly, weekdaily) pointwise equal to
accumulating R2 then R1 (Python dict equality disregards insertion order,
which pointwise lookup equality captures). -/
theorem c6_accumulate_order_independent (s e : Nat) (r₁ r₂ : ArclinkRequest) :
    (∀ k, findB k (accumulate (accumulate (counterInit s e) r₁) r₂).hourly =
      findB k (accumulate (accumulate (counterInit s e) r₂) r₁).hourly) ∧
    (∀ k, findB k (accumulate (accumulate (counterInit s e) r₁) r₂).daily =
      findB k (accumulate (accumulate (counterInit s e) r₂) r₁).daily) ∧
    (∀ k, findB k (accumulate (accumulate (counterInit s e) r₁) r₂).monthly =
      findB k (accumulate (accumulate (counterInit s e) r₂) r₁).monthly) ∧
    (∀ k, findB k (accumulate (accumulate (counterInit s e) r₁) r₂).weekdaily =
      findB k (accumulate (accumulate (counterInit s e) r₂) r₁).weekdaily) := by
  refine ⟨?_, ?_, ?_, ?_⟩ <;> intro k <;> simp only [accumulate] <;>
    exact findB_bump_comm k _ _ _ _ _

theorem sumB_bump {κ : Type} [DecidableEq κ] (k : κ) (d : Metrics) (m : Buckets κ) :
    sumB (bump k d m) = addMetrics (sumB m) d := by
  induction m with
  | nil =>
    simp only [bump, sumB, List.foldr, addMetrics_zero_right, addMetrics_zero_left]
  | cons kv rest ih =>
    obtain ⟨k', v⟩ := kv
    by_cases hk : k' = k
    · simp only [bump, if_pos hk, sumB, List.foldr]
      show addMetrics (addMetrics v d) (List.foldr _ zeroM rest) =
        addMetrics (addMetrics v (List.foldr _ zeroM rest)) d
      rw [addMetrics_assoc, addMetrics_assoc, addMetrics_comm d]
    · simp only [bump, if_neg hk, sumB, List.foldr] at ih ⊢
      rw [ih, ← addMetrics_assoc]

theorem sumB_zero {κ : Type} (m : Buckets κ) (h : ∀ kv ∈ m, kv.2 = zeroM) :
    sumB m = zeroM := by
  induction m with
  | nil => rfl
  | cons kv rest ih =>
    have h1 : kv.2 = zeroM := h kv (List.mem_cons_self kv rest)
    have h2 : sumB rest = zeroM := ih (fun x hx => h x (List.mem_cons_of_mem kv hx))
    show addMetrics kv.2 (sumB rest) = zeroM
    rw [h1, h2, addMetrics_zero_right]

theorem setdefault_allZero {κ : Type} [DecidableEq κ] (m : Buckets κ) (k : κ)
    (h : ∀ kv ∈ m, kv.2 = zeroM) : ∀ kv ∈ setdefault m k, kv.2 = zeroM := by
  intro kv hkv
  unfold setdefault at hkv
  split at hkv
  · exact h kv hkv
  · rcases List.mem_append.mp hkv with hin | hin
    · exact h kv hin
    · simp only [List.mem_singleton] at hin
      rw [hin]

theorem presetLoop_allZero (f : Nat) : ∀ (t e : Nat)
    (d : Buckets (Nat × Nat × Nat)) (m : Buckets (Nat × Nat)) (w : Buckets String),
    (∀ kv ∈ d, kv.2 = zeroM) → (∀ kv ∈ m, kv.2 = zeroM) → (∀ kv ∈ w, kv.2 = zeroM) →
    ((∀ kv ∈ (presetLoop f t e (d, m, w)).1, kv.2 = zeroM) ∧
     (∀ kv ∈ (presetLoop f t e (d, m, w)).2.1, kv.2 = zeroM) ∧
     (∀ kv ∈ (presetLoop f t e (d, m, w)).2.2, kv.2 = zeroM)) := by
  induction f with
  | zero => intro t e d m w hd hm hw; exact ⟨hd, hm, hw⟩
  | succ f ih =>
    intro t e d m w hd hm hw
    show ((∀ kv ∈ (presetLoop (f + 1) t e (d, m, w)).1, kv.2 = zeroM) ∧ _ ∧ _)
    unfold presetLoop
    split
    · exact ih (t + 86400) e _ _ _ (setdefault_allZero d _ hd)
        (setdefault_allZero m _ hm) (setdefault_allZero w _ hw)
    · exact ⟨hd, hm, hw⟩

theorem hourlySeed_allZero : ∀ kv ∈ hourlySeed, kv.2 = zeroM := by decide

theorem counterInit_sums_zero (s e : Nat) :
    sumB (counterInit s e).hourly = zeroM ∧ sumB (counterInit s e).daily = zeroM ∧
    sumB (counterInit s e).monthly = zeroM ∧ sumB (counterInit s e).weekdaily = zeroM := by
  have hz := presetLoop_allZero (e - s + 1) s e [] [] []
    (by intro kv h; cases h) (by intro kv h; cases h) (by intro kv h; cases h)
  exact ⟨sumB_zero _ hourlySeed_allZero, sumB_zero _ hz.1, sumB_zero _ hz.2.1,
    sumB_zero _ hz.2.2⟩

theorem accumulate_sums (c : Counter) (r : ArclinkRequest) :
    sumB (accumulate c r).hourly = addMetrics (sumB c.hourly) (requestDelta r) ∧
    sumB (accumulate c r).daily = addMetrics (sumB c.daily) (requestDelta r) ∧
    sumB (accumulate c r).monthly = addMetrics (sumB c.monthly) (requestDelta r) ∧
    sumB (accumulate c r).weekdaily = addMetrics (sumB c.weekdaily) (requestDelta r) :=
  ⟨sumB_bump _ _ _, sumB_bump _ _ _, sumB_bump _ _ _, sumB_bump _ _ _⟩

theorem foldl_accumulate_sums_eq (rs : List ArclinkRequest) : ∀ (c : Counter),
    sumB c.hourly = sumB c.daily → sumB c.daily = sumB c.monthly →
    sumB c.monthly = sumB c.weekdaily →
    (sumB (rs.foldl accumulate c).hourly = sumB (rs.foldl accumulate c).daily ∧
     sumB (rs.foldl accumulate c).daily = sumB (rs.foldl accumulate c).monthly ∧
     sumB (rs.foldl accumulate c).monthly = sumB (rs.foldl accumulate c).weekdaily) := by
  induction rs with
  | nil => intro c h1 h2 h3; exact ⟨h1, h2, h3⟩
  | cons r rest ih =>
    intro c h1 h2 h3
    have ha := accumulate_sums c r
    exact ih (accumulate c r) (by rw [ha.1, ha.2.1, h1]) (by rw [ha.2.1, ha.2.2.1, h2])
      (by rw [ha.2.2.1, ha.2.2.2, h3])

/-- C9: after any finite sequence of accumulate calls on a freshly seeded
counter, the componentwise metric sums (requestCount, lineCount, errorCount,
volumeBytes) agree across all four bucket dimensions; and a single
accumulate call adds the request's delta into exactly one bucket per
dimension — the bucket of its creation time, created on the fly when the
timestamp falls outside the pre-seeded range — leaving every other bucket
untouched. -/
theorem c9_cross_dimension_invariant (s e : Nat) (rs : List ArclinkRequest)
    (c : Counter) (r : ArclinkRequest) :
    (sumB (rs.foldl accumulate (counterInit s e)).hourly =
        sumB (rs.foldl accumulate (counterInit s e)).daily ∧
      sumB (rs.foldl accumulate (counterInit s e)).daily =
        sumB (rs.foldl accumulate (counterInit s e)).monthly ∧
      sumB (rs.foldl accumulate (counterInit s e)).monthly =
        sumB (rs.foldl accumulate (counterInit s e)).weekdaily) ∧
    (∀ k, findB k (accumulate c r).hourly =
      if k = hourKey r.created then
        some (addMetrics ((findB k c.hourly).getD zeroM) (requestDelta r))
      else findB k c.hourly) ∧
    (∀ k, findB k (accumulate c r).daily =
      if k = dayKey r.created then
        some (addMetrics ((findB k c.daily).getD zeroM) (requestDelta r))
      else findB k c.daily) ∧
    (∀ k, findB k (accumulate c r).monthly =
      if k = monthKey r.created then
        some (addMetrics ((findB k c.monthly).getD zeroM) (requestDelta r))
      else findB k c.monthly) ∧
    (∀ k, findB k (accumulate c r).weekdaily =
      if k = weekdayKey r.created then
        some (addMetrics ((findB k c.weekdaily).getD zeroM) (requestDelta r))
      else findB k c.weekdaily) := by
  have hz := counterInit_sums_zero s e
  refine ⟨foldl_accumulate_sums_eq rs (counterInit s e) (by rw [hz.1, hz.2.1])
    (by rw [hz.2.1, hz.2.2.1]) (by rw [hz.2.2.1, hz.2.2.2]), ?_, ?_, ?_, ?_⟩ <;>
    intro k <;> simp only [accumulate] <;> split
  · rename_i hk; rw [hk, findB_bump_self]
  · rename_i hk; rw [findB_bump_other k _ hk]
  · rename_i hk; rw [hk, findB_bump_self]
  · rename_i hk; rw [findB_bump_other k _ hk]
  · rename_i hk; rw [hk, findB_bump_self]
  · rename_i hk; rw [findB_bump_other k _ hk]
  · rename_i hk; rw [hk, findB_bump_self]
  · rename_i hk; rw [findB_bump_other k _ hk]

theorem splitYearAux_small (f y d : Nat) (h : d < 365) : splitYearAux f y d = (y, d) := by
  cases f with
  | zero => rfl
  | succ f =>
    show (if d < daysInYear y then (y, d) else _) = (y, d)
    rw [if_pos (lt_of_lt_of_le h (daysInYear_pos y))]

theorem splitYearAux_fuel (f₁ : Nat) : ∀ (f₂ y d : Nat),
    d < 365 * f₁ + 365 → d < 365 * f₂ + 365 → splitYearAux f₁ y d = splitYearAux f₂ y d := by
  induction f₁ with
  | zero =>
    intro f₂ y d h₁ h₂
    rw [splitYearAux_small 0 y d (by omega), splitYearAux_small f₂ y d (by omega)]
  | succ f ih =>
    intro f₂ y d h₁ h₂
    have hpos := daysInYear_pos y
    by_cases hd : d < daysInYear y
    · cases f₂ with
      | zero => rw [splitYearAux_small (f + 1) y d (by omega)]; rfl
      | succ g =>
        show (if d < daysInYear y then (y, d) else _) =
          (if d < daysInYear y then (y, d) else _)
        rw [if_pos hd, if_pos hd]
    · cases f₂ with
      | zero => omega
      | succ g =>
        show (if d < daysInYear y then (y, d) else splitYearAux f (y + 1) (d - daysInYear y)) =
          (if d < daysInYear y then (y, d) else splitYearAux g (y + 1) (d - daysInYear y))
        rw [if_neg hd, if_neg hd]
        exact ih g (y + 1) (d - daysInYear y) (by omega) (by omega)

theorem splitYear_eq (y d : Nat) : splitYear y d =
    if d < daysInYear y then (y, d) else splitYear (y + 1) (d - daysInYear y) := by
  have hstep : splitYearAux (d + 1) y d =
      if d < daysInYear y then (y, d) else splitYearAux d (y + 1) (d - daysInYear y) := rfl
  have hpos := daysInYear_pos y
  by_cases hd : d < daysInYear y
  · rw [if_pos hd]
    show splitYearAux (d + 1) y d = (y, d)
    rw [hstep, if_pos hd]
  · rw [if_neg hd]
    show splitYearAux (d + 1) y d = splitYearAux (d - daysInYear y + 1) (y + 1) (d - daysInYear y)
    rw [hstep, if_neg hd]
    exact splitYearAux_fuel d (d - daysInYear y + 1) (y + 1) (d - daysInYear y)
      (by omega) (by omega)

theorem splitYear_fst_ge (d : Nat) : ∀ (y : Nat), y ≤ (splitYear y d).1 := by
  induction d using Nat.strong_induction_on with
  | _ d ih =>
    intro y
    rw [splitYear_eq]
    split
    · exact Nat.le_refl y
    · rename_i hd
      have hpos := daysInYear_pos y
      have := ih (d - daysInYear y) (by omega) (y + 1)
      omega

theorem splitYear_inj (d₁ : Nat) : ∀ (y d₂ : Nat), splitYear y d₁ = splitYear y d₂ → d₁ = d₂ := by
  induction d₁ using Nat.strong_induction_on with
  | _ d₁ ih =>
    intro y d₂ h
    rw [splitYear_eq y d₁, splitYear_eq y d₂] at h
    have hpos := daysInYear_pos y
    by_cases h₁ : d₁ < daysInYear y <;> by_cases h₂ : d₂ < daysInYear y
    · rw [if_pos h₁, if_pos h₂] at h
      exact congrArg Prod.snd h
    · rw [if_pos h₁, if_neg h₂] at h
      have hge := splitYear_fst_ge (d₂ - daysInYear y) (y + 1)
      rw [← h] at hge
      have : y + 1 ≤ y := hge
      omega
    · rw [if_neg h₁, if_pos h₂] at h
      have hge := splitYear_fst_ge (d₁ - daysInYear y) (y + 1)
      rw [h] at hge
      have : y + 1 ≤ y := hge
      omega
    · rw [if_neg h₁, if_neg h₂] at h
      have := ih (d₁ - daysInYear y) (by omega) (y + 1) (d₂ - daysInYear y) h
      omega

theorem monthSplitAux_fst_ge (ls : List Nat) : ∀ (m d : Nat), m ≤ (monthSplitAux ls m d).1 := by
  induction ls with
  | nil => intro m d; exact Nat.le_refl m
  | cons len rest ih =>
    intro m d
    show m ≤ (if d < len then (m, d) else monthSplitAux rest (m + 1) (d - len)).1
    split
    · exact Nat.le_refl m
    · exact Nat.le_trans (Nat.le_succ m) (ih (m + 1) (d - len))

theorem monthSplitAux_inj (ls : List Nat) : ∀ (m d₁ d₂ : Nat),
    monthSplitAux ls m d₁ = monthSplitAux ls m d₂ → d₁ = d₂ := by
  induction ls with
  | nil => intro m d₁ d₂ h; exact congrArg Prod.snd h
  | cons len rest ih =>
    intro m d₁ d₂ h
    have hstep₁ : monthSplitAux (len :: rest) m d₁ =
        if d₁ < len then (m, d₁) else monthSplitAux rest (m + 1) (d₁ - len) := rfl
    have hstep₂ : monthSplitAux (len :: rest) m d₂ =
        if d₂ < len then (m, d₂) else monthSplitAux rest (m + 1) (d₂ - len) := rfl
    rw [hstep₁, hstep₂] at h
    by_cases h₁ : d₁ < len <;> by_cases h₂ : d₂ < len
    · rw [if_pos h₁, if_pos h₂] at h
      exact congrArg Prod.snd h
    · rw [if_pos h₁, if_neg h₂] at h
      have hge := monthSplitAux_fst_ge rest (m + 1) (d₂ - len)
      rw [← h] at hge
      have : m + 1 ≤ m := hge
      omega
    · rw [if_neg h₁, if_pos h₂] at h
      have hge := monthSplitAux_fst_ge rest (m + 1) (d₁ - len)
      rw [h] at hge
      have : m + 1 ≤ m := hge
      omega
    · rw [if_neg h₁, if_neg h₂] at h
      have := ih (m + 1) (d₁ - len) (d₂ - len) h
      omega

theorem civilFromDays_inj (z₁ z₂ : Nat) (h : civilFromDays z₁ = civilFromDays z₂) :
    z₁ = z₂ := by
  unfold civilFromDays at h
  have hy : (splitYear 1970 z₁).1 = (splitYear 1970 z₂).1 := congrArg (fun p => p.1) h
  have hm : (monthSplit (isLeap (splitYear 1970 z₁).1) (splitYear 1970 z₁).2).1 =
      (monthSplit (isLeap (splitYear 1970 z₂).1) (splitYear 1970 z₂).2).1 :=
    congrArg (fun p => p.2.1) h
  have hd : (monthSplit (isLeap (splitYear 1970 z₁).1) (splitYear 1970 z₁).2).2 + 1 =
      (monthSplit (isLeap (splitYear 1970 z₂).1) (splitYear 1970 z₂).2).2 + 1 :=
    congrArg (fun p => p.2.2) h
  rw [hy] at hm hd
  have hmd : monthSplit (isLeap (splitYear 1970 z₂).1) (splitYear 1970 z₁).2 =
      monthSplit (isLeap (splitYear 1970 z₂).1) (splitYear 1970 z₂).2 :=
    Prod.ext hm (by omega)
  have hdoy : (splitYear 1970 z₁).2 = (splitYear 1970 z₂).2 :=
    monthSplitAux_inj (monthLengths (isLeap (splitYear 1970 z₂).1)) 1 _ _ hmd
  exact splitYear_inj z₁ 1970 z₂ (Prod.ext hy hdoy)

theorem findB_not_mem {κ V : Type} [DecidableEq κ] (k : κ) (m : List (κ × V))
    (h : ∀ kv ∈ m, kv.1 ≠ k) : findB k m = none := by
  induction m with
  | nil => rfl
  | cons kv rest ih =>
    obtain ⟨k', v⟩ := kv
    show (if k' = k then some v else findB k rest) = none
    rw [if_neg (h (k', v) (List.mem_cons_self _ _)), ih (fun x hx => h x (List.mem_cons_of_mem _ hx))]

theorem setdefault_append {κ : Type} [DecidableEq κ] (m : Buckets κ) (k : κ)
    (h : findB k m = none) : setdefault m k = m ++ [(k, zeroM)] := by
  unfold setdefault
  rw [h]
  rfl

theorem presetLoop_daily_length (f : Nat) : ∀ (t e : Nat)
    (d : Buckets (Nat × Nat × Nat)) (m : Buckets (Nat × Nat)) (w : Buckets String),
    e - t ≤ 86400 * f →
    (∀ kv ∈ d, ∃ z, z < dayNum t ∧ kv.1 = civilFromDays z) →
    (presetLoop f t e (d, m, w)).1.length = d.length + (e - t + 86399) / 86400 := by
  induction f with
  | zero =>
    intro t e d m w hf _
    show d.length = d.length + (e - t + 86399) / 86400
    omega
  | succ f ih =>
    intro t e d m w hf hfresh
    show (if t < e then
        presetLoop f (t + 86400) e
          (setdefault d (dayKey t), setdefault m (monthKey t), setdefault w (weekdayKey t))
      else (d, m, w)).1.length = d.length + (e - t + 86399) / 86400
    by_cases hte : t < e
    · rw [if_pos hte]
      have hnone : findB (dayKey t) d = none := by
        apply findB_not_mem
        intro kv hkv
        obtain ⟨z, hz, hkey⟩ := hfresh kv hkv
        rw [hkey]
        unfold dayKey
        intro hEq
        have := civilFromDays_inj z (dayNum t) hEq
        omega
      have hset : setdefault d (dayKey t) = d ++ [(dayKey t, zeroM)] :=
        setdefault_append d _ hnone
      have hfresh' : ∀ kv ∈ setdefault d (dayKey t),
          ∃ z, z < dayNum (t + 86400) ∧ kv.1 = civilFromDays z := by
        rw [hset]
        have hdn : dayNum (t + 86400) = dayNum t + 1 := by unfold dayNum; omega
        intro kv hkv
        rcases List.mem_append.mp hkv with hin | hin
        · obtain ⟨z, hz, hkey⟩ := hfresh kv hin
          exact ⟨z, by omega, hkey⟩
        · simp only [List.mem_singleton] at hin
          refine ⟨dayNum t, by omega, ?_⟩
          rw [hin]
          exact rfl
      have hrec := ih (t + 86400) e (setdefault d (dayKey t)) (setdefault m (monthKey t))
        (setdefault w (weekdayKey t)) (by omega) hfresh'
      rw [hrec, hset]
      simp only [List.length_append, List.length_singleton]
      omega
    · rw [if_neg hte]
      show d.length = d.length + (e - t + 86399) / 86400
      omega

/-- C4: for every start < end, `Counter.__init__` seeds exactly the 24 hourly
bucket keys "00" through "23" and exactly `ceil((end - start) / 86400)` daily
bucket keys, every bucket initialized to the zero metrics tuple. -/
theorem c4_counter_preseeding (s e : Nat) (h : s < e) :
    (counterInit s e).hourly = (List.range 24).map (fun n => (pad2 n, zeroM)) ∧
    (counterInit s e).daily.length = (e - s + 86399) / 86400 ∧
    (∀ kv ∈ (counterInit s e).daily, kv.2 = zeroM) := by
  have hh : hourlySeed = (List.range 24).map (fun n => (pad2 n, zeroM)) := by decide
  have hz := (presetLoop_allZero (e - s + 1) s e [] [] []
    (by intro kv hkv; cases hkv) (by intro kv hkv; cases hkv)
    (by intro kv hkv; cases hkv)).1
  have hlen := presetLoop_daily_length (e - s + 1) s e [] [] [] (by omega)
    (by intro kv hkv; cases hkv)
  refine ⟨hh, ?_, hz⟩
  show (presetLoop (e - s + 1) s e ([], [], [])).1.length = (e - s + 86399) / 86400
  simpa using hlen

/-- Witness for C4 on the concrete range [86400, 172800): one daily bucket
and the 24 hourly buckets. -/
theorem c4_counter_preseeding_witness :
    86400 < 172800 ∧
    ((counterInit 86400 172800).hourly = (List.range 24).map (fun n => (pad2 n, zeroM)) ∧
     (counterInit 86400 172800).daily.length = (172800 - 86400 + 86399) / 86400 ∧
     (∀ kv ∈ (counterInit 86400 172800).daily, kv.2 = zeroM)) :=
  ⟨by omega, c4_counter_preseeding 86400 172800 (by omega)⟩

theorem lineLoop_spec (c : Criteria) : ∀ (lns : List RequestLine),
    (lineLoop c lns).1 = (lns.filter (lineKept c)).length ∧
    (lineLoop c lns).2.2 = ((lns.filter (lineKept c)).map clampDur).sum := by
  intro lns
  induction lns with
  | nil => exact ⟨rfl, rfl⟩
  | cons ln rest ih =>
    by_cases hb : lineKept c ln = true
    · constructor
      · simp [lineLoop, hb, List.filter_cons, ih.1]
      · simp [lineLoop, hb, List.filter_cons, ih.2]
        omega
    · have hb' : lineKept c ln = false := by
        revert hb
        cases lineKept c ln <;> simp
      constructor
      · simp [lineLoop, hb', List.filter_cons, ih.1]
      · simp [lineLoop, hb', List.filter_cons, ih.2]

/-- C3 amended: when line-level filtering is active, the derived summary's
average time window equals the arithmetic mean over the matched request
lines of their clamped-nonnegative durations `max(end - start, 0)`; it is 0
when zero lines matched; and it is replaced by the sentinel -1 exactly when
that mean strictly exceeds 2^32 (the source tests `> 2**32`, so a mean of
exactly 2^32 = 4294967296 — which does not fit a 32-bit unsigned value — is
reported as-is rather than clamped). -/
theorem c3_average_time_window (c : Criteria) (lns : List RequestLine)
    (hactive : c.lines = true ∨ c.restricted ≠ none) :
    ((lns.filter (lineKept c)).length = 0 → averageTimeWindow c lns = 0) ∧
    (0 < (lns.filter (lineKept c)).length →
      ((((lns.filter (lineKept c)).map clampDur).sum : ℚ) /
            ((lns.filter (lineKept c)).length : ℚ) ≤ 2 ^ 32 →
        averageTimeWindow c lns =
          (((lns.filter (lineKept c)).map clampDur).sum : ℚ) /
            ((lns.filter (lineKept c)).length : ℚ)) ∧
      (2 ^ 32 < (((lns.filter (lineKept c)).map clampDur).sum : ℚ) /
            ((lns.filter (lineKept c)).length : ℚ) →
        averageTimeWindow c lns = -1)) := by
  have hs := lineLoop_spec c lns
  constructor
  · intro h0
    have hnil : lns.filter (lineKept c) = [] := List.length_eq_zero.mp h0
    simp only [averageTimeWindow, hs.1, hs.2, hnil, List.length_nil, List.map_nil,
      List.sum_nil, Nat.cast_zero, gt_iff_lt, lt_irrefl, if_false]
    norm_num
  · intro hpos
    constructor
    · intro hle
      simp only [averageTimeWindow, hs.1, hs.2, gt_iff_lt, hpos, if_true]
      rw [if_neg (not_lt.mpr hle)]
    · intro hgt
      simp only [averageTimeWindow, hs.1, hs.2, gt_iff_lt, hpos, if_true]
      rw [if_pos hgt]

/-- C3 counterexample: with line filtering active and a single matched line
spanning exactly 2^32 seconds, the mean 4294967296 does not fit a 32-bit
unsigned value (it exceeds 2^32 - 1), yet the source reports it as-is
instead of the claimed sentinel -1. -/
theorem c3_counterexample :
    averageTimeWindow linesCriteria [hugeWindowLine] = 4294967296 ∧
    (2 ^ 32 - 1 : ℚ) < 4294967296 ∧ (4294967296 : ℚ) ≠ -1 := by
  refine ⟨?_, by norm_num, by norm_num⟩
  have hkept : lineKept linesCriteria hugeWindowLine = true := by decide
  have hloop : lineLoop linesCriteria [hugeWindowLine] = (1, 0, 4294967296) := by decide
  simp only [averageTimeWindow, hloop]
  norm_num

/-- Witness for the amended C3: with line filtering active and no matching
lines, the average time window is 0. -/
theorem c3_average_time_window_witness :
    (linesCriteria.lines = true ∨ linesCriteria.restricted ≠ none) ∧
    ((([] : List RequestLine).filter (lineKept linesCriteria)).length = 0 →
      averageTimeWindow linesCriteria [] = 0) ∧
    (0 < (([] : List RequestLine).filter (lineKept linesCriteria)).length →
      ((((([] : List RequestLine).filter (lineKept linesCriteria)).map clampDur).sum : ℚ) /
            ((([] : List RequestLine).filter (lineKept linesCriteria)).length : ℚ) ≤ 2 ^ 32 →
        averageTimeWindow linesCriteria [] =
          (((([] : List RequestLine).filter (lineKept linesCriteria)).map clampDur).sum : ℚ) /
            ((([] : List RequestLine).filter (lineKept linesCriteria)).length : ℚ)) ∧
      (2 ^ 32 < (((([] : List RequestLine).filter (lineKept linesCriteria)).map clampDur).sum : ℚ) /
            ((([] : List RequestLine).filter (lineKept linesCriteria)).length : ℚ) →
        averageTimeWindow linesCriteria [] = -1)) :=
  ⟨Or.inl rfl, c3_average_time_window linesCriteria [] (Or.inl rfl)⟩

/-- C1 counterexample: a finished request (status "END") with two summarized
errors, selected with onlyErrors and nothing else: the source accepts it
through the `not lines and not volume and onlyErrors and reqErrors > 0`
fallback of line 1506 even though matchedByStatus is false, while the
claim's decision table (whose first disjunct requires matchedByStatus)
rejects it. -/
theorem c1_counterexample :
    selectDecision onlyErrorsCriteria endErrRecord = true ∧
    specClaimAccept onlyErrorsCriteria endErrRecord = false := by
  decide

/-- C1 amended: a candidate request is accepted iff it passes both IP gates,
is not rejected by a requested volume finding zero status lines, and then:
onlyErrors was requested and the status is not "END" (with no further
condition — neither reqErrors > 0 nor the absence of narrowing is required),
OR onlyErrors was requested with no line/volume narrowing and reqErrors > 0
(message narrowing does not disable this fallback, and matchedByStatus is
not required), OR an IP filter was supplied with no message/line/onlyErrors/
volume narrowing, OR some status line survived the volume/message/onlyErrors
skips, OR line examination was active and some request line survived the
volume/message/onlyErrors/stream-pattern/restricted skips. -/
theorem c1_selection_decision (c : Criteria) (r : ArclinkRequest) :
    selectDecision c r = true ↔
    (ipMatches c.userIP r.userIP = true ∧ ipMatches c.clientIP r.clientIP = true ∧
      ¬(truthy c.volume = true ∧ r.statusLines = []) ∧
      ((c.onlyErrors = true ∧ r.status ≠ "END") ∨
       (c.onlyErrors = true ∧ c.lines = false ∧ truthy c.volume = false ∧ 0 < reqErrors r) ∨
       (truthy c.message = false ∧ c.lines = false ∧ c.onlyErrors = false ∧
         truthy c.volume = false ∧ (c.userIP ≠ none ∨ c.clientIP ≠ none)) ∨
       (∃ sl ∈ r.statusLines, slineKept c sl = true) ∨
       ((c.lines = true ∨ c.restricted ≠ none) ∧
         ∃ ln ∈ r.requestLines, lineKept c ln = true))) := by
  unfold selectDecision
  by_cases h1 : ipMatches c.userIP r.userIP = true
  · by_cases h2 : ipMatches c.clientIP r.clientIP = true
    · by_cases h3 : truthy c.volume = true ∧ r.statusLines.length = 0
      · rw [if_neg (fun hn => hn h1), if_neg (fun hn => hn h2), if_pos h3]
        simp only [Bool.false_eq_true, false_iff]
        intro hc
        exact hc.2.2.1 ⟨h3.1, List.length_eq_zero.mp h3.2⟩
      · rw [if_neg (fun hn => hn h1), if_neg (fun hn => hn h2), if_neg h3]
        simp only [Bool.or_eq_true, Bool.and_eq_true, Bool.not_eq_true',
          decide_eq_true_eq, List.any_eq_true, beq_eq_false_iff_ne, ne_eq,
          Option.isSome_iff_ne_none, h1, h2, true_and]
        constructor
        · intro hd
          refine ⟨fun hvol => h3 ⟨hvol.1, List.length_eq_zero.mpr hvol.2⟩, ?_⟩
          rcases hd with ((((hA | hB) | hC) | hL) | hV)
          · exact Or.inl hA
          · exact Or.inr (Or.inl ⟨hB.1.2, hB.1.1.1, hB.1.1.2, hB.2⟩)
          · exact Or.inr (Or.inr (Or.inl
              ⟨hC.1.1.1.1, hC.1.1.1.2, hC.1.1.2, hC.1.2, hC.2⟩))
          · exact Or.inr (Or.inr (Or.inr (Or.inr hL)))
          · exact Or.inr (Or.inr (Or.inr (Or.inl hV)))
        · rintro ⟨_, hd⟩
          rcases hd with hA | hB | hC | hV | hL
          · exact Or.inl (Or.inl (Or.inl (Or.inl hA)))
          · exact Or.inl (Or.inl (Or.inl (Or.inr
              ⟨⟨⟨hB.2.1, hB.2.2.1⟩, hB.1⟩, hB.2.2.2⟩)))
          · exact Or.inl (Or.inl (Or.inr
              ⟨⟨⟨⟨hC.1, hC.2.1⟩, hC.2.2.1⟩, hC.2.2.2.1⟩, hC.2.2.2.2⟩))
          · exact Or.inr hV
          · exact Or.inl (Or.inr hL)
    · rw [if_neg (fun hn => hn h1), if_pos h2]
      simp only [Bool.false_eq_true, false_iff]
      intro hc
      exact h2 hc.2.1
  · rw [if_pos h1]
    simp only [Bool.false_eq_true, false_iff]
    intro hc
    exact h1 hc.1

theorem findB_updD_self {κ V : Type} [DecidableEq κ] (k : κ) (z : V) (f : V → V)
    (m : List (κ × V)) : findB k (updD k z f m) = some (f ((findB k m).getD z)) := by
  induction m with
  | nil => simp [updD, findB]
  | cons kv rest ih =>
    obtain ⟨k', v⟩ := kv
    by_cases h : k' = k
    · subst h
      simp [updD, findB]
    · simp [updD, findB, h, ih]

theorem findB_updD_other {κ V : Type} [DecidableEq κ] (q k : κ) (h : q ≠ k) (z : V)
    (f : V → V) (m : List (κ × V)) : findB q (updD k z f m) = findB q m := by
  induction m with
  | nil =>
    simp only [updD, findB]
    rw [if_neg (fun hkq => h hkq.symm)]
  | cons kv rest ih =>
    obtain ⟨k', v⟩ := kv
    by_cases hk : k' = k
    · have hkq : ¬ k' = q := fun hq => h (hq ▸ hk)
      simp only [updD, if_pos hk, findB, if_neg hkq]
    · by_cases hq : k' = q
      · simp only [updD, if_neg hk, findB, if_pos hq]
      · simp only [updD, if_neg hk, findB, if_neg hq, ih]

theorem statusLoop_volumes_bytes (user v : String) (sls : List StatusLine) :
    ∀ (st : List (String × (Nat × Nat × Nat)) × List (String × (Int × Int × Int × Nat)) ×
      List (String × Nat) × List (String × Bool)),
    ((findB v (statusLoop user sls st).1).getD (0, 0, 0)).2.2 =
      ((findB v st.1).getD (0, 0, 0)).2.2 +
        ((sls.filter (fun sl => sl.volumeID == v)).map slineSize).sum := by
  induction sls with
  | nil => intro st; simp [statusLoop]
  | cons sl rest ih =>
    intro st
    show ((findB v (statusLoop user rest (statusStep user st sl)).1).getD (0, 0, 0)).2.2 = _
    rw [ih (statusStep user st sl)]
    have hstep : (statusStep user st sl).1 = updD sl.volumeID (0, 0, 0)
        (fun w => (w.1 + 1, w.2.1 + slErr sl, w.2.2 + slineSize sl)) st.1 := rfl
    rw [hstep]
    by_cases hv : sl.volumeID = v
    · rw [hv, findB_updD_self]
      have hf : (sl.volumeID == v) = true := by rw [hv]; exact beq_self_eq_true v
      simp only [List.filter_cons, hf, if_true, Option.getD_some, List.map_cons,
        List.sum_cons]
      omega
    · rw [findB_updD_other v sl.volumeID (fun hq => hv hq.symm)]
      have hf : (sl.volumeID == v) = false := by
        rw [beq_eq_false_iff_ne]
        exact hv
      simp only [List.filter_cons, hf, Bool.false_eq_true, if_false]

theorem requestLoop_streams_bytes (volErr : List (String × Bool)) (k : String)
    (lns : List RequestLine) :
    ∀ (st : List (String × (Nat × Nat × Nat × Nat × Nat)) × List (String × Nat) ×
      List (String × (Nat × Nat × Nat × Nat))),
    ((findB k (requestLoop volErr lns st).1).getD (0, 0, 0, 0, 0)).2.2.2.1 =
      ((findB k st.1).getD (0, 0, 0, 0, 0)).2.2.2.1 +
        ((lns.filter (fun ln => streamKey ln == k)).map (reqLineSize volErr)).sum := by
  induction lns with
  | nil => intro st; simp [requestLoop]
  | cons ln rest ih =>
    intro st
    show ((findB k (requestLoop volErr rest (lineStep volErr st ln)).1).getD
      (0, 0, 0, 0, 0)).2.2.2.1 = _
    rw [ih (lineStep volErr st ln)]
    have hstep : (lineStep volErr st ln).1 = updD (streamKey ln) (0, 0, 0, 0, 0)
        (fun w => (w.1 + 1, w.2.1 + rlNodata ln, w.2.2.1 + rlErr ln,
          w.2.2.2.1 + reqLineSize volErr ln, w.2.2.2.2 + clampDur ln)) st.1 := rfl
    rw [hstep]
    by_cases hv : streamKey ln = k
    · rw [hv, findB_updD_self]
      have hf : (streamKey ln == k) = true := by rw [hv]; exact beq_self_eq_true k
      simp only [List.filter_cons, hf, if_true, Option.getD_some, List.map_cons,
        List.sum_cons]
      omega
    · rw [findB_updD_other k (streamKey ln) (fun hq => hv hq.symm)]
      have hf : (streamKey ln == k) = false := by
        rw [beq_eq_false_iff_ne]
        exact hv
      simp only [List.filter_cons, hf, Bool.false_eq_true, if_false]

/-- C7: in the summary aggregation, the byVolume byte total of any volume key
grows only by the sizes of its non-ERROR status lines (an ERROR status line
contributes exactly 0 bytes even when a size was recorded); the byStation
byte total of any station key grows by the per-line sizes computed against
the request's volume-error flags, where a line whose volume is flagged
contributes 0 bytes, and a line whose volume was never seen among the status
lines falls back to its own recorded size (on the non-ERROR/non-NODATA
path where the flag would be consulted). -/
theorem c7_error_bytes_zeroed (S : SummaryState) (r : ArclinkRequest) (v k : String) :
    (((findB v (procRequest S r).volumes).getD (0, 0, 0)).2.2 =
      ((findB v S.volumes).getD (0, 0, 0)).2.2 +
        ((r.statusLines.filter (fun sl => sl.volumeID == v)).map slineSize).sum) ∧
    (∀ sl : StatusLine, sl.status = "ERROR" → slineSize sl = 0) ∧
    (((findB k (procRequest S r).streams).getD (0, 0, 0, 0, 0)).2.2.2.1 =
      ((findB k S.streams).getD (0, 0, 0, 0, 0)).2.2.2.1 +
        ((r.requestLines.filter (fun ln => streamKey ln == k)).map
          (reqLineSize (requestVolErr S r))).sum) ∧
    (∀ ln : RequestLine, findB ln.status.volumeID (requestVolErr S r) = some true →
      reqLineSize (requestVolErr S r) ln = 0) ∧
    (∀ ln : RequestLine, ln.status.status ≠ "ERROR" → ln.status.status ≠ "NODATA" →
      findB ln.status.volumeID (requestVolErr S r) = none →
      reqLineSize (requestVolErr S r) ln = ln.status.size) := by
  refine ⟨?_, ?_, ?_, ?_, ?_⟩
  · have hv : (procRequest S r).volumes =
        (statusLoop r.userID r.statusLines (S.volumes, S.users, S.messages, [])).1 := rfl
    rw [hv]
    exact statusLoop_volumes_bytes r.userID v r.statusLines
      (S.volumes, S.users, S.messages, [])
  · intro sl h
    unfold slineSize
    rw [if_pos h]
  · have hs : (procRequest S r).streams =
        (requestLoop (requestVolErr S r) r.requestLines
          (S.streams,
           (statusLoop r.userID r.statusLines (S.volumes, S.users, S.messages, [])).2.2.1,
           [])).1 := rfl
    rw [hs]
    exact requestLoop_streams_bytes (requestVolErr S r) k r.requestLines _
  · intro ln h
    unfold reqLineSize
    split_ifs with h1 h2
    · rfl
    · rfl
    · rw [h]
  · intro ln h1 h2 h
    unfold reqLineSize
    rw [if_neg h1, if_neg h2, h]

/-- C8: a request line whose network code starts with X, Y or Z is keyed in
byNetwork as "code/year" using the line's start year, any other code is keyed
bare; and in the spec's two-record scenario (an IU request with no errors and
an XX request with start year 2021 and two error lines) the byNetwork rollup
holds the keys "IU" and "XX/2021" with requestCount 1 each, and
errorRequestIDs maps request id 2 to error count 2. -/
theorem c8_network_keying_and_scenario :
    (∀ (ln : RequestLine) (ch : Char) (rest : List Char),
      ln.streamID.networkCode.data = ch :: rest →
      ((ch = 'X' ∨ ch = 'Y' ∨ ch = 'Z') →
        netKey ln = ln.streamID.networkCode ++ "/" ++ yearStr ln.start) ∧
      (¬(ch = 'X' ∨ ch = 'Y' ∨ ch = 'Z') → netKey ln = ln.streamID.networkCode)) ∧
    (findB "IU"
        (procRequest (procRequest (initSummaryState 0 0) iuRecord) xxRecord).nets).map
      (fun w => w.1) = some 1 ∧
    (findB "XX/2021"
        (procRequest (procRequest (initSummaryState 0 0) iuRecord) xxRecord).nets).map
      (fun w => w.1) = some 1 ∧
    (procRequest (procRequest (initSummaryState 0 0) iuRecord) xxRecord).errors =
      [("2", 2)] := by
  refine ⟨?_, by decide, by decide, by decide⟩
  intro ln ch rest h
  constructor
  · intro hxyz
    simp only [netKey, h]
    rw [if_pos hxyz]
  · intro hxyz
    simp only [netKey, h]
    rw [if_neg hxyz]

end Webreqlog
